import Mathlib

/-!
Verification of the TOEIC practice-script repository (six near-identical
Python CLI scripts).  Each script follows the pipeline
generate -> parse/fallback -> display -> collect answer -> score -> persist.
The definitions below are a shallow embedding of the relevant Python code:
external effects (the remote chat-completion call, the JSON decode of its
reply, the keyboard input stream, the wall clock) are passed in as explicit
data, and Python exceptions are modelled with Except.
-/

namespace Toeic

/-! ## A model of Python values and the exceptions raised by item access

Used to reason about code that subscripts the decoded JSON reply
(for example display_question in reading/part5/part5.py). -/

/-- Python exceptions that item access can raise. -/
inductive PyErr where
  | keyError (k : String)
  | typeError
  | indexError
deriving DecidableEq, Repr

/-- A Python/JSON value as produced by json.loads. -/
inductive PyVal where
  | str (s : String)
  | int (n : Int)
  | bool (b : Bool)
  | null
  | list (xs : List PyVal)
  | dict (fields : List (String × PyVal))
deriving Repr

mutual

/-- Python repr() restricted to the values above (strings are quoted). -/
def PyVal.pyRepr : PyVal → String
  | .str s => "\x27" ++ s ++ "\x27"
  | .int n => toString n
  | .bool b => if b then "True" else "False"
  | .null => "None"
  | .list xs => "[" ++ PyVal.reprElems xs ++ "]"
  | .dict fs => "\x7b" ++ PyVal.reprFields fs ++ "\x7d"

/-- Comma-separated reprs of list elements. -/
def PyVal.reprElems : List PyVal → String
  | [] => ""
  | [x] => x.pyRepr
  | x :: rest => x.pyRepr ++ ", " ++ PyVal.reprElems rest

/-- Comma-separated reprs of dict entries. -/
def PyVal.reprFields : List (String × PyVal) → String
  | [] => ""
  | [(k, v)] => "\x27" ++ k ++ "\x27: " ++ v.pyRepr
  | (k, v) :: rest =>
      "\x27" ++ k ++ "\x27: " ++ v.pyRepr ++ ", " ++ PyVal.reprFields rest

end

/-- Python str(): identity on strings, repr on everything else. -/
def PyVal.pyStr : PyVal → String
  | .str s => s
  | v => v.pyRepr

/-- Python subscripting d[k] on a dict: KeyError when the key is absent,
TypeError when the value is not a dict. -/
def PyVal.getItem : PyVal → String → Except PyErr PyVal
  | .dict fs, k =>
    match fs.find? (fun kv => kv.1 == k) with
    | some kv => .ok kv.2
    | none => .error (.keyError k)
  | _, _ => .error .typeError

/-- Python subscripting xs[i] on a list with a nonnegative index:
IndexError when out of range, TypeError when the value is not a list. -/
def PyVal.index : PyVal → Nat → Except PyErr PyVal
  | .list xs, i =>
    match xs.get? i with
    | some v => .ok v
    | none => .error .indexError
  | _, _ => .error .typeError

/-- Python falsiness, as tested by the guard `if not question`: None,
False, 0, the empty string, the empty list and the empty dict are falsy;
every other value is truthy. -/
def PyVal.pyFalsy : PyVal → Bool
  | .str s => s == ""
  | .int n => n == 0
  | .bool b => !b
  | .null => true
  | .list xs => xs.isEmpty
  | .dict fs => fs.isEmpty

/-! ## The outcome of one generation attempt

In every script, generate_* performs one remote chat-completion call inside
try/except and then json.loads on the reply text inside an inner
try/except json.JSONDecodeError.  The three possible outcomes are made
explicit data here. -/

/-- Outcome of one remote call plus JSON decode of the reply content. -/
inductive ReplyOutcome (α : Type) where
  | raised
  | decodeFailed
  | decoded (a : α)
deriving DecidableEq, Repr

/-! ## The history file on disk

load_history in each script checks os.path.exists, then json.load inside
try/except json.JSONDecodeError.  Only that exception is caught; a file
that exists and parses is returned as is. -/

/-- State of the history file as seen by load_history. -/
inductive HistFileState (α : Type) where
  | missing
  | invalidJson
  | validJson (doc : α)
deriving DecidableEq, Repr

/-- Python str.upper() on the keyboard entries, character by character
(the entries compared against the A/B/C/D/Q alphabet are ASCII). -/
def strUpper (s : String) : String := String.mk (s.data.map Char.toUpper)

end Toeic

namespace Toeic.Part5

/-! ## reading/part5/part5.py -/

/-- TOEICPractice.topics in reading/part5/part5.py. -/
def topics : List String :=
  ["Office issues", "Financial issues", "Sales and marketing",
   "Business transactions", "Transportation", "Tourism",
   "Entertainment and dining out", "Schedules"]

/-- A well-formed decoded question with the fields the prompt requests. -/
structure Question where
  sentence : String
  options : List String
  correct_answer : String
  explanation : String
  topic : String
deriving DecidableEq, Repr

/-- The hardcoded fallback_result built in generate_question when
json.loads raises JSONDecodeError (part5.py lines 104-110). -/
def fallback_result (topic : String) : Question :=
  { sentence := "Could not parse the question properly."
  , options := ["Option A", "Option B", "Option C", "Option D"]
  , correct_answer := "A"
  , explanation := "Please try again."
  , topic := topic }

/-- The prompt template of generate_question (part5.py lines 66-85),
an f-string whose only hole is the topic. -/
def question_prompt (topic : String) : String :=
  "\n        Generate a TOEIC Part 5 practice question (Incomplete Sentences) on the topic of "
  ++ topic ++
  ".\n        \n        The question should be a single sentence with one blank, and provide four options (A, B, C, D) to fill in the blank.\n        Only ONE option should be correct. Include an explanation of why the correct answer is right and why the others are wrong.\n        \n        Format the response as a JSON object with these fields:\n        - sentence: The incomplete sentence with a blank indicated by \"___\"\n        - options: An array of 4 options (A, B, C, D)\n        - correct_answer: The letter of the correct option (A, B, C, or D)\n        - explanation: A detailed explanation of the correct answer\n        - topic: The topic of the question\n        \n        Make sure the question tests one of these skills:\n        - Vocabulary (similar words with different meanings, phrasal verbs)\n        - Word forms (noun, pronoun, verb, adjective, adverb, infinitive, gerund)\n        - Grammar (subject, verb, object, complement, preposition, adjective)\n        \n        The difficulty should be appropriate for TOEIC test takers (intermediate to advanced English).\n        "

/-- Topic resolution at the top of generate_question: if not topic,
topic = random.choice(self.topics).  The random pick is explicit data. -/
def resolve_topic (topicArg : Option String) (randPick : String) : String :=
  topicArg.getD randPick

/-- The prompt generate_question sends, as a function of the topic argument
and of the random topic pick used when the argument is absent. -/
def generation_prompt (topicArg : Option String) (randPick : String) : String :=
  question_prompt (resolve_topic topicArg randPick)

/-- generate_question (part5.py lines 87-115) given the resolved topic and
the outcome of the remote call plus JSON decode: an exception from the call
yields None, a JSONDecodeError yields the fallback record, and a decoded
reply is returned as is. -/
def generate_question (topic : String) (outcome : ReplyOutcome Question) :
    Option Question :=
  match outcome with
  | .raised => Option.none
  | .decodeFailed => some (fallback_result topic)
  | .decoded q => some q

/-- One entry of session["questions"] (part5.py lines 169-175). -/
structure QuestionRecord where
  sentence : String
  user_answer : String
  correct_answer : String
  is_correct : Bool
  topic : String
deriving DecidableEq, Repr

/-- The session dict built in practice_session (part5.py lines 130-135). -/
structure Session where
  date : String
  questions : List QuestionRecord
  correct : Nat
  total : Nat
deriving DecidableEq, Repr

/-- The history document of part5.py:
sessions list plus cumulative counters. -/
structure History where
  sessions : List Session
  total_correct : Nat
  total_questions : Nat
deriving DecidableEq, Repr

/-- Default document returned by load_history when the file is missing or
json.load raises JSONDecodeError (part5.py lines 27-34). -/
def default_history : History :=
  { sessions := [], total_correct := 0, total_questions := 0 }

/-- load_history (part5.py lines 27-34). -/
def load_history : HistFileState History → History
  | .missing => default_history
  | .invalidJson => default_history
  | .validJson d => d

/-- The answer-reading loop of practice_session (part5.py lines 148-152):
read lines, uppercase each, re-prompt until one of A, B, C, D, Q appears.
The available keyboard entries for this question are an explicit list;
an exhausted list means the loop is still blocked waiting for input. -/
def read_answer : List String → Option String
  | [] => Option.none
  | entry :: rest =>
    let u := strUpper entry
    if u = "A" ∨ u = "B" ∨ u = "C" ∨ u = "D" ∨ u = "Q" then some u
    else read_answer rest

/-- External data consumed by one iteration of the question loop:
the outcome of the generation attempt, the random topic pick used when no
topic was given, and the keyboard entries typed at the answer prompt.
The pause prompt between questions reads one ignored line and is not
modelled. -/
structure IterInput where
  outcome : ReplyOutcome Question
  randTopic : String
  answers : List String
deriving Repr

/-- The question loop of practice_session (part5.py lines 137-179).
A failed generation skips the iteration; the token Q ends the session
early; otherwise the answer is scored, the correct counter bumped, and a
record appended.  The result is none only when the keyboard entry list for
a displayed question ran out, a state where the real program still blocks
on input. -/
def run_iters (topicArg : Option String) :
    List IterInput → Session → Option Session
  | [], s => some s
  | it :: rest, s =>
    match generate_question (resolve_topic topicArg it.randTopic) it.outcome with
    | Option.none => run_iters topicArg rest s
    | some q =>
      match read_answer it.answers with
      | Option.none => Option.none
      | some u =>
        if u = "Q" then some s
        else
          let ic : Bool := u == q.correct_answer
          run_iters topicArg rest
            { s with
              correct := s.correct + (if ic then 1 else 0)
              questions := s.questions ++
                [{ sentence := q.sentence, user_answer := u
                 , correct_answer := q.correct_answer, is_correct := ic
                 , topic := q.topic }] }

/-- practice_session (part5.py lines 126-193): create the session dict with
total fixed to num_questions, run the loop, then append the session and
bump the cumulative counters before save_history. -/
def practice_session (num_questions : Nat) (date : String)
    (topicArg : Option String) (iters : List IterInput) (h : History) :
    Option History :=
  (run_iters topicArg iters
      { date := date, questions := [], correct := 0
      , total := num_questions }).map fun s =>
    { sessions := h.sessions ++ [s]
    , total_correct := h.total_correct + s.correct
    , total_questions := h.total_questions + s.questions.length }

/-- Everything one call of practice_session consumes from the outside. -/
structure RunInput where
  num_questions : Nat
  date : String
  topicArg : Option String
  iters : List IterInput
deriving Repr

/-- A sequence of practice sessions starting from a loaded document, each
one ending in save_history. -/
def run_sessions : List RunInput → History → Option History
  | [], h => some h
  | r :: rs, h =>
    match practice_session r.num_questions r.date r.topicArg r.iters h with
    | Option.none => Option.none
    | some h2 => run_sessions rs h2

/-- The documented invariant of the history document: the cumulative
counters equal the sums of the stored per-session counts. -/
def history_inv (h : History) : Prop :=
  h.total_correct = (h.sessions.map (fun s => s.correct)).sum ∧
  h.total_questions = (h.sessions.map (fun s => s.questions.length)).sum

instance (h : History) : Decidable (history_inv h) := by
  unfold history_inv; infer_instance

/-! ### The untyped view needed for display_question

practice_session hands the decoded reply straight to display_question,
which subscripts it with no exception handler anywhere on that path. -/

/-- The fallback_result dict as the raw Python value (part5.py 104-110). -/
def fallback_pyval (topic : String) : PyVal :=
  .dict
    [ ("sentence", .str "Could not parse the question properly.")
    , ("options", .list [.str "Option A", .str "Option B",
                         .str "Option C", .str "Option D"])
    , ("correct_answer", .str "A")
    , ("explanation", .str "Please try again.")
    , ("topic", .str topic) ]

/-- generate_question at the raw value level: any successfully decoded JSON
value is returned as is, whatever its shape. -/
def generate_question_pv (topic : String) (outcome : ReplyOutcome PyVal) :
    Option PyVal :=
  match outcome with
  | .raised => Option.none
  | .decodeFailed => some (fallback_pyval topic)
  | .decoded v => some v

/-- display_question (part5.py lines 117-124): prints a header, the topic,
the sentence, and the four options, subscripting the question dict each
time.  Returns the printed lines, or the first exception raised. -/
def display_question (q : PyVal) : Except PyErr (List String) := do
  let topic ← q.getItem "topic"
  let sentence ← q.getItem "sentence"
  let options ← q.getItem "options"
  let o0 ← options.index 0
  let o1 ← options.index 1
  let o2 ← options.index 2
  let o3 ← options.index 3
  pure [ "=".pushn '=' 79
       , "Topic: " ++ topic.pyStr
       , sentence.pyStr
       , "Options:"
       , "A. " ++ o0.pyStr
       , "B. " ++ o1.pyStr
       , "C. " ++ o2.pyStr
       , "D. " ++ o3.pyStr ]

/-- One iteration of the question loop up to the display step
(part5.py lines 139-145).  The guard `if not question` takes the skip
branch both when generate_question returned None and when the decoded
reply is a falsy Python value (such as the empty dict); otherwise
display_question runs with no surrounding handler, so any exception it
raises propagates out of practice_session. -/
def item_step (topic : String) (outcome : ReplyOutcome PyVal) :
    Except PyErr (Option (List String)) :=
  match generate_question_pv topic outcome with
  | Option.none => .ok Option.none
  | some q =>
    if q.pyFalsy then .ok Option.none
    else (display_question q).map some

end Toeic.Part5

namespace Toeic.Part6

/-! ## part6/part6.py -/

/-- One decoded question object inside a Part 6 passage. -/
structure PassageQuestion where
  blank_number : Int
  options : List String
  correct_answer : String
  explanation : String
deriving DecidableEq, Repr

/-- A well-formed decoded passage with the fields the prompt requests. -/
structure Passage where
  passage_title : String
  passage_text : String
  questions : List PassageQuestion
  passage_type : String
  topic : String
deriving DecidableEq, Repr

/-- The hardcoded fallback_result built in generate_passage when json.loads
raises JSONDecodeError (part6.py lines 118-143). -/
def fallback_result (passage_type topic : String) : Passage :=
  { passage_title := "Sample Passage"
  , passage_text := "Could not parse the passage properly. Please try again."
  , questions :=
      [ { blank_number := 1
        , options := ["Option A", "Option B", "Option C", "Option D"]
        , correct_answer := "A", explanation := "Please try again." }
      , { blank_number := 2
        , options := ["Option A", "Option B", "Option C", "Option D"]
        , correct_answer := "A", explanation := "Please try again." }
      , { blank_number := 3
        , options := ["Option A", "Option B", "Option C", "Option D"]
        , correct_answer := "A", explanation := "Please try again." } ]
  , passage_type := passage_type
  , topic := topic }

/-- generate_passage (part6.py lines 69-148) given the resolved topic, the
random passage-type pick, and the outcome of the remote call plus JSON
decode. -/
def generate_passage (topic passage_type : String)
    (outcome : ReplyOutcome Passage) : Option Passage :=
  match outcome with
  | .raised => Option.none
  | .decodeFailed => some (fallback_result passage_type topic)
  | .decoded p => some p

/-- One entry of passage_result["questions"] (part6.py lines 216-221). -/
structure QuestionRecord where
  blank_number : Int
  user_answer : String
  correct_answer : String
  is_correct : Bool
deriving DecidableEq, Repr

/-- The passage_result dict built per passage (part6.py lines 182-187). -/
structure PassageRecord where
  passage_title : String
  passage_type : String
  topic : String
  questions : List QuestionRecord
deriving DecidableEq, Repr

/-- The session dict built in practice_session (part6.py lines 167-172);
total is fixed to num_passages * 3 at creation. -/
structure Session where
  date : String
  passages : List PassageRecord
  correct : Nat
  total : Nat
deriving DecidableEq, Repr

/-- The history document of part6.py; the top-level list of past sessions
is stored under the key named passages. -/
structure History where
  passages : List Session
  total_correct : Nat
  total_questions : Nat
deriving DecidableEq, Repr

/-- Default document returned by load_history when the file is missing or
json.load raises JSONDecodeError (part6.py lines 34-41). -/
def default_history : History :=
  { passages := [], total_correct := 0, total_questions := 0 }

/-- load_history (part6.py lines 34-41). -/
def load_history : HistFileState History → History
  | .missing => default_history
  | .invalidJson => default_history
  | .validJson d => d

/-- Number of question records stored across the passages of a session. -/
def session_questions (s : Session) : Nat :=
  (s.passages.map (fun p => p.questions.length)).sum

/-- The inner question loop over passage["questions"]
(part6.py lines 191-225), given one keyboard entry list per question.
Returns the updated session, the question records gathered for this
passage, and whether the user entered Q.  The result is none only when the
keyboard entries for a displayed question ran out, a state where the real
program still blocks on input. -/
def run_questions :
    List PassageQuestion → List (List String) → Session →
      List QuestionRecord → Option (Session × List QuestionRecord × Bool)
  | [], _, s, acc => some (s, acc, false)
  | _, [], _, _ => Option.none
  | q :: qs, entries :: restEntries, s, acc =>
    match Part5.read_answer entries with
    | Option.none => Option.none
    | some u =>
      if u = "Q" then some (s, acc, true)
      else
        let ic : Bool := u == q.correct_answer
        run_questions qs restEntries
          { s with correct := s.correct + (if ic then 1 else 0) }
          (acc ++ [{ blank_number := q.blank_number, user_answer := u
                   , correct_answer := q.correct_answer, is_correct := ic }])

/-- External data consumed by one iteration of the passage loop. -/
structure IterInput where
  outcome : ReplyOutcome Passage
  randTopic : String
  randType : String
  answers : List (List String)
deriving Repr

/-- The passage loop of practice_session (part6.py lines 174-236).  A
failed generation skips the iteration.  When the user enters Q the partial
passage_result is NOT appended to session["passages"] (the break comes
first), although the correct counter keeps any increments gained in that
passage; the outer loop then stops.  The model requires each generated
passage to carry at least one question: with an empty list the source
would hit an unbound user_answer at the outer Q check. -/
def run_passages (topicArg : Option String) :
    List IterInput → Session → Option Session
  | [], s => some s
  | it :: rest, s =>
    match generate_passage (topicArg.getD it.randTopic) it.randType
        it.outcome with
    | Option.none => run_passages topicArg rest s
    | some passage =>
      match run_questions passage.questions it.answers s [] with
      | Option.none => Option.none
      | some (s2, recs, quit) =>
        if quit then some s2
        else
          run_passages topicArg rest
            { s2 with passages := s2.passages ++
                [{ passage_title := passage.passage_title
                 , passage_type := passage.passage_type
                 , topic := passage.topic, questions := recs }] }

/-- practice_session (part6.py lines 163-251): create the session dict with
total fixed to num_passages * 3, run the passage loop, then append the
session under the top-level passages key and bump the cumulative counters
before save_history; total_questions grows by the number of question
records stored across the appended passages. -/
def practice_session (num_passages : Nat) (date : String)
    (topicArg : Option String) (iters : List IterInput) (h : History) :
    Option History :=
  (run_passages topicArg iters
      { date := date, passages := [], correct := 0
      , total := num_passages * 3 }).map fun s =>
    { passages := h.passages ++ [s]
    , total_correct := h.total_correct + s.correct
    , total_questions := h.total_questions + session_questions s }

/-- Everything one call of practice_session consumes from the outside. -/
structure RunInput where
  num_passages : Nat
  date : String
  topicArg : Option String
  iters : List IterInput
deriving Repr

/-- A sequence of practice sessions starting from a loaded document. -/
def run_sessions : List RunInput → History → Option History
  | [], h => some h
  | r :: rs, h =>
    match practice_session r.num_passages r.date r.topicArg r.iters h with
    | Option.none => Option.none
    | some h2 => run_sessions rs h2

/-- The documented invariant of the part6 history document. -/
def history_inv (h : History) : Prop :=
  h.total_correct = (h.passages.map (fun s => s.correct)).sum ∧
  h.total_questions = (h.passages.map session_questions).sum

instance (h : History) : Decidable (history_inv h) := by
  unfold history_inv; infer_instance

end Toeic.Part6

namespace Toeic.Part67

/-! ## writing/part6_7.py -/

/-- TOEICEmailResponsePractice.email_contexts. -/
def email_contexts : List String :=
  ["Office issues", "Job ads and applications",
   "Ads for products and services", "Orders and shipments",
   "Schedules", "Appointments"]

/-- TOEICEmailResponsePractice.task_types. -/
def task_types : List String :=
  ["Ask questions", "Request information", "Make suggestions",
   "Provide information", "Explain problems"]

/-- _number_to_word (part6_7.py lines 263-272): words.get(number,
str(number)) over the table 1..5. -/
def number_to_word (n : Int) : String :=
  if n = 1 then "one"
  else if n = 2 then "two"
  else if n = 3 then "three"
  else if n = 4 then "four"
  else if n = 5 then "five"
  else toString n

/-- The task-description branch of generate_email_scenario
(part6_7.py lines 79-94): for a drawn task type and count, the string
appended to tasks; an unmatched type appends nothing. -/
def task_description (task_type : String) (count : Int) : List String :=
  if task_type = "Ask questions" then
    ["Ask " ++ strUpper (number_to_word count) ++ " question" ++
      (if count > 1 then "s" else "") ++ "."]
  else if task_type = "Request information" then
    ["Make " ++ strUpper (number_to_word count) ++ " request" ++
      (if count > 1 then "s" else "") ++ " for information."]
  else if task_type = "Make suggestions" then
    ["Make " ++ strUpper (number_to_word count) ++ " suggestion" ++
      (if count > 1 then "s" else "") ++ "."]
  else if task_type = "Provide information" then
    ["Give " ++ strUpper (number_to_word count) ++ " piece" ++
      (if count > 1 then "s" else "") ++ " of information."]
  else if task_type = "Explain problems" then
    ["Explain " ++ strUpper (number_to_word count) ++ " problem" ++
      (if count > 1 then "s" else "") ++ "."]
  else []

/-- The tasks list built from the random draws: num_tasks = randint(1, 3),
selected_task_types = random.sample(task_types, num_tasks), and one count
drawn per type.  A draw is the list of (type, count) pairs. -/
def build_tasks (draws : List (String × Int)) : List String :=
  (draws.map fun d => task_description d.1 d.2).flatten

/-- The per-type range of the count drawn for a task type: randint(1, 3)
for Ask questions and Provide information, randint(1, 2) for the rest. -/
def count_in_range (task_type : String) (count : Int) : Prop :=
  1 ≤ count ∧
    count ≤ (if task_type = "Ask questions" ∨
                task_type = "Provide information" then 3 else 2)

/-- The draws the random sampling in generate_email_scenario can actually
produce: one to three distinct task types from task_types, each with a
count in its range. -/
def legal_draws (draws : List (String × Int)) : Prop :=
  1 ≤ draws.length ∧ draws.length ≤ 3 ∧
  (draws.map Prod.fst).Nodup ∧
  ∀ d ∈ draws, d.1 ∈ task_types ∧ count_in_range d.1 d.2

instance (draws : List (String × Int)) : Decidable (legal_draws draws) := by
  unfold legal_draws count_in_range; infer_instance

/-- Python repr of the tasks list, interpolated verbatim by the f-string
of the prompt (part6_7.py line 111). -/
def tasks_repr (tasks : List String) : String :=
  "[" ++ ", ".intercalate (tasks.map fun t => "\x27" ++ t ++ "\x27") ++ "]"

/-- The prompt template of generate_email_scenario
(part6_7.py lines 96-114), as a function of the resolved context and of
the drawn tasks; the tasks enter both as a comma-joined line and as the
Python repr of the list. -/
def email_prompt (context : String) (draws : List (String × Int)) : String :=
  let tasks := build_tasks draws
  "\n        Generate a realistic email scenario for a TOEIC Writing test (Questions 6-7).\n        The email should be related to: "
  ++ context ++
  "\n        \n        The response should require the test-taker to perform the following tasks:\n        "
  ++ ", ".intercalate tasks ++
  "\n        \n        Format the response as a JSON object with these fields:\n        - email_subject: A clear subject line for the email\n        - sender_name: The name of the person sending the email\n        - sender_position: The position or role of the sender\n        - recipient_name: The name of the intended recipient (the test-taker)\n        - recipient_position: The position or role of the recipient\n        - email_body: The full content of the email (150-200 words)\n        - context: The context of the email ("
  ++ context ++
  ")\n        - tasks: An array of the specific tasks the test-taker needs to address in their response "
  ++ tasks_repr tasks ++
  "\n        - key_points: 3-5 key points that should be addressed in a good response\n        - sample_response: A sample good response to the email that addresses all the tasks\n        "

end Toeic.Part67

namespace Toeic.FreeText

/-! ## The free-text collection loop with its countdown

writing/part6_7.py run_practice_session lines 362-384 (time_limit 600)
and writing/part8.py run_practice_session lines 338-361 (time_limit 1800)
contain the same loop: read a line, stop on an empty line once some
content exists, append the line plus a newline, then compare the elapsed
wall-clock time against the limit and stop when it is reached, printing
remaining-time messages along the way.  Each keyboard line is modelled
together with the elapsed seconds observed right after it was read. -/

/-- The collection loop as written, with the timer: the line read is
appended first, then the deadline check can end collection early. -/
def collect_text (time_limit : Nat) :
    List (String × Nat) → String → String
  | [], acc => acc
  | (line, elapsed) :: rest, acc =>
    if line = "" ∧ acc ≠ "" then acc
    else
      let acc2 := acc ++ line ++ "\n"
      if time_limit ≤ elapsed then acc2
      else collect_text time_limit rest acc2

/-- The same loop with the timer removed: only the blank-line terminator
ends collection. -/
def collect_text_untimed : List (String × Nat) → String → String
  | [], acc => acc
  | (line, _) :: rest, acc =>
    if line = "" ∧ acc ≠ "" then acc
    else collect_text_untimed rest (acc ++ line ++ "\n")

end Toeic.FreeText

namespace Toeic.RecentSessions

/-! ## The recent-sessions block of show_stats

reading/part7/part7.py lines 333-335 and writing/part1_5.py lines 484-486
both run, after an early return when the stored list is empty:

  recent_sessions = hist[sessions][-5:] if len(hist[sessions]) > 5
                    else hist[sessions]
  recent_sessions.reverse()

The slice [-5:] allocates a fresh list, so reversing it leaves the stored
list alone; the else branch aliases the stored list itself, so reverse()
mutates the history object in place.  The function returns the pair
(displayed list, stored list after the call). -/

/-- The recent-sessions computation including the empty-history early
return that precedes it in both scripts. -/
def show_stats_recent {α : Type} (sessions : List α) :
    List α × List α :=
  if sessions.isEmpty then ([], sessions)
  else if sessions.length > 5 then
    ((sessions.drop (sessions.length - 5)).reverse, sessions)
  else
    (sessions.reverse, sessions.reverse)

end Toeic.RecentSessions

namespace Toeic

/-! ## Helper lemmas -/

/-- One part5 practice session preserves the counter invariant. -/
theorem Part5.session_step_inv {n : Nat} {d : String}
    {t : Option String} {iters : List Part5.IterInput}
    {h h2 : Part5.History}
    (hrun : Part5.practice_session n d t iters h = some h2)
    (hinv : Part5.history_inv h) : Part5.history_inv h2 := by
  unfold Part5.practice_session at hrun
  cases hres : Part5.run_iters t iters
      { date := d, questions := [], correct := 0, total := n } with
  | none => rw [hres] at hrun; simp at hrun
  | some s =>
    rw [hres] at hrun
    simp only [Option.map_some'] at hrun
    obtain ⟨h1, h2eq⟩ := hinv
    cases hrun
    constructor <;>
      simp [Part5.history_inv, List.map_append, List.sum_append, h1, h2eq]

/-- A sequence of part5 practice sessions preserves the invariant. -/
theorem Part5.sequence_inv :
    ∀ (rs : List Part5.RunInput) {h h2 : Part5.History},
      Part5.run_sessions rs h = some h2 → Part5.history_inv h →
      Part5.history_inv h2
  | [], h, h2, hrun, hinv => by
    unfold Part5.run_sessions at hrun
    cases hrun
    exact hinv
  | r :: rs, h, h2, hrun, hinv => by
    unfold Part5.run_sessions at hrun
    cases hps : Part5.practice_session r.num_questions r.date r.topicArg
        r.iters h with
    | none => rw [hps] at hrun; cases hrun
    | some hmid =>
      rw [hps] at hrun
      exact Part5.sequence_inv rs hrun
        (Part5.session_step_inv hps hinv)

/-- One part6 practice session preserves the counter invariant. -/
theorem Part6.p6_session_step_inv {n : Nat} {d : String}
    {t : Option String} {iters : List Part6.IterInput}
    {h h2 : Part6.History}
    (hrun : Part6.practice_session n d t iters h = some h2)
    (hinv : Part6.history_inv h) : Part6.history_inv h2 := by
  unfold Part6.practice_session at hrun
  cases hres : Part6.run_passages t iters
      { date := d, passages := [], correct := 0, total := n * 3 } with
  | none => rw [hres] at hrun; simp at hrun
  | some s =>
    rw [hres] at hrun
    simp only [Option.map_some'] at hrun
    obtain ⟨h1, h2eq⟩ := hinv
    cases hrun
    constructor <;>
      simp [Part6.history_inv, List.map_append, List.sum_append, h1, h2eq]

/-- A sequence of part6 practice sessions preserves the invariant. -/
theorem Part6.p6_sequence_inv :
    ∀ (rs : List Part6.RunInput) {h h2 : Part6.History},
      Part6.run_sessions rs h = some h2 → Part6.history_inv h →
      Part6.history_inv h2
  | [], h, h2, hrun, hinv => by
    unfold Part6.run_sessions at hrun
    cases hrun
    exact hinv
  | r :: rs, h, h2, hrun, hinv => by
    unfold Part6.run_sessions at hrun
    cases hps : Part6.practice_session r.num_passages r.date r.topicArg
        r.iters h with
    | none => rw [hps] at hrun; cases hrun
    | some hmid =>
      rw [hps] at hrun
      exact Part6.p6_sequence_inv rs hrun
        (Part6.p6_session_step_inv hps hinv)

/-! ## The claims -/

/-- C1: after any sequence of practice sessions, each ending in save(),
the cumulative counters total_correct and total_questions of the history
document equal the sums of the stored per-session correct counts and
recorded-question counts, provided the document loaded at startup
satisfied this equality.  Holds for the part5 script and for the part6
script (where the recorded-question count of a session is the number of
question records stored across its passages). -/
theorem c1_counters_match_stored_sums :
    (∀ (rs : List Part5.RunInput) (h h2 : Part5.History),
        Part5.history_inv h → Part5.run_sessions rs h = some h2 →
        Part5.history_inv h2) ∧
    (∀ (rs : List Part6.RunInput) (h h2 : Part6.History),
        Part6.history_inv h → Part6.run_sessions rs h = some h2 →
        Part6.history_inv h2) :=
  ⟨fun rs _ _ hinv hrun => Part5.sequence_inv rs hrun hinv,
   fun rs _ _ hinv hrun => Part6.p6_sequence_inv rs hrun hinv⟩

/-- Witness for C1: a concrete one-question part5 session answered
correctly and a concrete one-passage part6 session with all three blanks
answered correctly, both starting from the default document. -/
theorem c1_counters_match_stored_sums_witness :
    Part5.history_inv
      { sessions :=
          [{ date := "2024-01-01"
           , questions :=
               [{ sentence := "Could not parse the question properly."
                , user_answer := "A", correct_answer := "A"
                , is_correct := true, topic := "Tourism" }]
           , correct := 1, total := 1 }]
      , total_correct := 1, total_questions := 1 } ∧
    Part6.history_inv
      { passages :=
          [{ date := "2024-01-01"
           , passages :=
               [{ passage_title := "Sample Passage", passage_type := "Memo"
                , topic := "Notices"
                , questions :=
                    [{ blank_number := 1, user_answer := "A"
                     , correct_answer := "A", is_correct := true }
                    ,{ blank_number := 2, user_answer := "A"
                     , correct_answer := "A", is_correct := true }
                    ,{ blank_number := 3, user_answer := "A"
                     , correct_answer := "A", is_correct := true }] }]
           , correct := 3, total := 3 }]
      , total_correct := 3, total_questions := 3 } :=
  ⟨c1_counters_match_stored_sums.1
    [{ num_questions := 1, date := "2024-01-01", topicArg := Option.none
     , iters := [{ outcome := .decoded (Part5.fallback_result "Tourism")
                 , randTopic := "x", answers := ["a"] }] }]
    Part5.default_history _ (by decide) (by decide),
   c1_counters_match_stored_sums.2
    [{ num_passages := 1, date := "2024-01-01", topicArg := Option.none
     , iters := [{ outcome := .decoded (Part6.fallback_result "Memo" "Notices")
                 , randTopic := "x", randType := "Memo"
                 , answers := [["a"], ["a"], ["a"]] }] }]
    Part6.default_history _ (by decide) (by decide)⟩

/-- C2: when the reply text is not valid JSON, the parsing step of
generation returns the hardcoded placeholder record whose correct-answer
field is the constant A (for each of the three placeholder questions in
part6), as a total function, so no exception is raised.  The topic and
passage-type fields of the placeholder are the resolved inputs; its
correct-answer content is constant. -/
theorem c2_decode_failure_placeholder :
    (∀ topic : String,
        Part5.generate_question topic .decodeFailed =
          some (Part5.fallback_result topic) ∧
        (Part5.fallback_result topic).correct_answer = "A") ∧
    (∀ topic passage_type : String,
        Part6.generate_passage topic passage_type .decodeFailed =
          some (Part6.fallback_result passage_type topic) ∧
        ((Part6.fallback_result passage_type topic).questions.map
            (fun q => q.correct_answer)) = ["A", "A", "A"]) :=
  ⟨fun _ => ⟨rfl, rfl⟩, fun _ _ => ⟨rfl, rfl⟩⟩

/-- C3: load_history returns the documented default document both when the
history file is missing and when its content makes json.load raise
JSONDecodeError, as a total function, so no exception is raised.  The
part5 default is the empty sessions list with zero counters and the part6
default is the script-specific equivalent keyed by passages. -/
theorem c3_load_returns_default :
    (Part5.load_history .missing = Part5.default_history ∧
     Part5.load_history .invalidJson = Part5.default_history ∧
     Part5.default_history =
       { sessions := [], total_correct := 0, total_questions := 0 }) ∧
    (Part6.load_history .missing = Part6.default_history ∧
     Part6.load_history .invalidJson = Part6.default_history ∧
     Part6.default_history =
       { passages := [], total_correct := 0, total_questions := 0 }) :=
  ⟨⟨rfl, rfl, rfl⟩, ⟨rfl, rfl, rfl⟩⟩

/-- Counterexample to C4: a reply that is valid JSON but lacks the
expected fields can raise.  A decoded nonempty object without the
expected keys is truthy, so it passes the `if not question` guard and
reaches display_question, whose very first subscript raises KeyError;
no handler on that path catches it, so the exception propagates out of
the session loop. -/
theorem c4_counterexample :
    Part5.item_step "Office issues" (.decoded (.dict [("foo", .int 1)])) =
      .error (.keyError "topic") := rfl

/-- C4 amended: failures of the remote call or of the whole-reply JSON
decode never propagate out of the item-processing step (the item is
skipped, or the placeholder is substituted and displays without error),
and a decoded reply that is falsy in Python (such as the empty object) is
skipped by the `if not question` guard; but a truthy reply that is valid
JSON while lacking the expected fields raises an uncaught KeyError in
display_question, which propagates out of the session loop. -/
theorem c4_generation_failures_degrade_but_bad_shapes_raise :
    (∀ topic : String, Part5.item_step topic .raised = .ok Option.none) ∧
    (∀ topic : String,
        Part5.item_step topic .decodeFailed =
          .ok (some [ String.pushn "=" '=' 79
                    , "Topic: " ++ topic
                    , "Could not parse the question properly."
                    , "Options:"
                    , "A. Option A", "B. Option B"
                    , "C. Option C", "D. Option D" ])) ∧
    (∀ topic : String,
        Part5.item_step topic (.decoded (.dict [])) = .ok Option.none) ∧
    (∃ v : PyVal, ∃ k : String,
        Part5.item_step "Office issues" (.decoded v) =
          .error (.keyError k)) :=
  ⟨fun _ => rfl, fun _ => rfl, fun _ => rfl,
   ⟨.dict [("foo", .int 1)], "topic", rfl⟩⟩

/-- Counterexample to C5: the countdown is not purely cosmetic.  With a
10-minute limit, a line entered once the elapsed time has reached the
limit ends collection, so later lines are dropped and the collected text
differs from what the loop with the timer removed would collect. -/
theorem c5_counterexample :
    FreeText.collect_text 600 [("a", 1), ("b", 601), ("c", 602), ("", 603)]
        "" ≠
      FreeText.collect_text_untimed
        [("a", 1), ("b", 601), ("c", 602), ("", 603)] "" := by decide

/-- C5 amended: the countdown only prints remaining-time messages as long
as every line is entered strictly before the time limit; in that case the
collected text is exactly the lines entered up to the blank-line
terminator, identical to the collection with the timer removed.  Once the
elapsed time reaches the limit, however, the loop stops right after the
current line and drops the rest. -/
theorem c5_timer_cosmetic_before_deadline :
    ∀ (time_limit : Nat) (input : List (String × Nat)),
      (∀ p ∈ input, p.2 < time_limit) →
      ∀ acc, FreeText.collect_text time_limit input acc =
        FreeText.collect_text_untimed input acc := by
  intro tl input
  induction input with
  | nil => intro _ acc; rfl
  | cons p rest ih =>
    intro hall acc
    obtain ⟨line, elapsed⟩ := p
    have hp : elapsed < tl := hall (line, elapsed) (by simp)
    unfold FreeText.collect_text FreeText.collect_text_untimed
    by_cases hline : line = "" ∧ acc ≠ ""
    · rw [if_pos hline, if_pos hline]
    · rw [if_neg hline, if_neg hline, if_neg (by omega)]
      exact ih (fun q hq => hall q (List.mem_cons_of_mem _ hq)) _

/-- Witness for C5: on an input whose lines all arrive before the
10-minute limit, the timed and untimed collections agree. -/
theorem c5_timer_cosmetic_before_deadline_witness :
    FreeText.collect_text 600 [("hello", 2), ("world", 3), ("", 4)] "" =
      FreeText.collect_text_untimed [("hello", 2), ("world", 3), ("", 4)]
        "" :=
  c5_timer_cosmetic_before_deadline 600
    [("hello", 2), ("world", 3), ("", 4)] (by decide) ""

/-- C6: when the remote chat-completion call raises, generate_question
returns None, and an iteration of the session loop whose generation
attempt raised leaves the session state untouched (no record appended, the
correct counter unchanged) and simply proceeds to the remaining
iterations.  The part6 passage loop behaves the same way. -/
theorem c6_remote_raise_skips_iteration :
    (∀ topic : String, Part5.generate_question topic .raised =
      Option.none) ∧
    (∀ (topicArg : Option String) (randTopic : String)
        (answers : List String) (rest : List Part5.IterInput)
        (s : Part5.Session),
        Part5.run_iters topicArg
            ({ outcome := .raised, randTopic := randTopic
             , answers := answers } :: rest) s =
          Part5.run_iters topicArg rest s) ∧
    (∀ topic passage_type : String,
        Part6.generate_passage topic passage_type .raised = Option.none) ∧
    (∀ (topicArg : Option String) (randTopic randType : String)
        (answers : List (List String)) (rest : List Part6.IterInput)
        (s : Part6.Session),
        Part6.run_passages topicArg
            ({ outcome := .raised, randTopic := randTopic
             , randType := randType, answers := answers } :: rest) s =
          Part6.run_passages topicArg rest s) :=
  ⟨fun _ => rfl, fun _ _ _ _ _ => rfl, fun _ _ => rfl,
   fun _ _ _ _ _ _ => rfl⟩

/-- A single keyboard entry that uppercases to a valid token is accepted
as that token by the answer-reading loop. -/
theorem Part5.read_answer_valid (a : String)
    (ha : strUpper a = "A" ∨ strUpper a = "B" ∨ strUpper a = "C" ∨
      strUpper a = "D") :
    Part5.read_answer [a] = some (strUpper a) := by
  unfold Part5.read_answer
  rcases ha with h | h | h | h <;> simp [h]

/-- The lowercase early-termination entry is accepted as Q. -/
theorem Part5.read_answer_q : Part5.read_answer ["q"] = some "Q" := by
  decide

/-- C7: in a part5 session requested with 2 questions, when the user
answers question 1 with any entry that uppercases to A, B, C or D and
then enters q at the second answer prompt, exactly one question record is
stored in the session, and the session is appended to the history
document with the partial correct count accumulated before termination
(1 when the first answer matched the correct answer of question 1,
otherwise 0), with the cumulative question counter advancing by the one
recorded question. -/
theorem c7_early_quit_stores_partial (q1 q2 : Part5.Question)
    (a d rt1 rt2 : String) (topicArg : Option String)
    (h : Part5.History)
    (ha : strUpper a = "A" ∨ strUpper a = "B" ∨ strUpper a = "C" ∨
      strUpper a = "D") :
    ∃ s : Part5.Session,
      Part5.practice_session 2 d topicArg
        [{ outcome := .decoded q1, randTopic := rt1, answers := [a] },
         { outcome := .decoded q2, randTopic := rt2, answers := ["q"] }]
        h =
        some { sessions := h.sessions ++ [s]
             , total_correct := h.total_correct + s.correct
             , total_questions := h.total_questions + 1 } ∧
      s.questions =
        [{ sentence := q1.sentence, user_answer := strUpper a
         , correct_answer := q1.correct_answer
         , is_correct := strUpper a == q1.correct_answer
         , topic := q1.topic }] ∧
      s.correct = (if strUpper a == q1.correct_answer then 1 else 0) ∧
      s.total = 2 := by
  have hq : ¬ (strUpper a = "Q") := by
    rcases ha with h' | h' | h' | h' <;> simp [h']
  refine ⟨{ date := d
          , questions :=
              [{ sentence := q1.sentence, user_answer := strUpper a
               , correct_answer := q1.correct_answer
               , is_correct := strUpper a == q1.correct_answer
               , topic := q1.topic }]
          , correct := if strUpper a == q1.correct_answer then 1 else 0
          , total := 2 }, ?_, rfl, rfl, rfl⟩
  simp only [Part5.practice_session, Part5.run_iters,
    Part5.generate_question, Part5.read_answer_valid a ha,
    Part5.read_answer_q, hq, if_false, Option.map_some']
  simp

/-- Witness for C7: the user types b at question 1 and q at question 2 of
a 2-question session over two concretely decoded questions, starting from
the default document. -/
theorem c7_early_quit_stores_partial_witness :
    (strUpper "b" = "A" ∨ strUpper "b" = "B" ∨ strUpper "b" = "C" ∨
      strUpper "b" = "D") ∧
    (∃ s : Part5.Session,
      Part5.practice_session 2 "d" Option.none
        [{ outcome := .decoded (Part5.fallback_result "Tourism")
         , randTopic := "x", answers := ["b"] },
         { outcome := .decoded (Part5.fallback_result "Schedules")
         , randTopic := "y", answers := ["q"] }]
        Part5.default_history =
        some { sessions := Part5.default_history.sessions ++ [s]
             , total_correct := Part5.default_history.total_correct +
                 s.correct
             , total_questions := Part5.default_history.total_questions +
                 1 } ∧
      s.questions =
        [{ sentence := (Part5.fallback_result "Tourism").sentence
         , user_answer := strUpper "b"
         , correct_answer := (Part5.fallback_result "Tourism").correct_answer
         , is_correct := strUpper "b" ==
             (Part5.fallback_result "Tourism").correct_answer
         , topic := (Part5.fallback_result "Tourism").topic }] ∧
      s.correct = (if strUpper "b" ==
          (Part5.fallback_result "Tourism").correct_answer then 1
        else 0) ∧
      s.total = 2) :=
  ⟨by decide,
   c7_early_quit_stores_partial (Part5.fallback_result "Tourism")
     (Part5.fallback_result "Schedules") "b" "d" "x" "y" Option.none
     Part5.default_history (by decide)⟩

set_option maxRecDepth 4000 in
/-- Counterexample to C8: the email-scenario prompt builder of the
writing part6_7 script is not determined by the topic/context choice.
Two draws the random task sampling can actually produce, with the very
same context (an element of email_contexts), build different prompt
strings. -/
theorem c8_counterexample :
    "Office issues" ∈ Part67.email_contexts ∧
    Part67.legal_draws [("Ask questions", 1)] ∧
    Part67.legal_draws [("Ask questions", 2)] ∧
    Part67.email_prompt "Office issues" [("Ask questions", 1)] ≠
      Part67.email_prompt "Office issues" [("Ask questions", 2)] :=
  ⟨by decide, by decide, by decide, by decide⟩

set_option maxRecDepth 4000 in
/-- C8 amended: the part5 prompt builder is pure string templating,
deterministic given the topic, with randomness entering only through the
topic pick when the caller leaves it unspecified; the email-scenario
builder of the writing part6_7 script, however, additionally draws a
random task list (number of tasks, task types, counts), so even a fixed
context can yield different prompt strings across runs. -/
theorem c8_prompt_determinism_amended :
    (∀ t r1 r2 : String,
        Part5.generation_prompt (some t) r1 =
          Part5.generation_prompt (some t) r2) ∧
    (∀ r : String,
        Part5.generation_prompt Option.none r = Part5.question_prompt r) ∧
    (∃ d1 d2 : List (String × Int),
        Part67.legal_draws d1 ∧ Part67.legal_draws d2 ∧
        Part67.email_prompt "Office issues" d1 ≠
          Part67.email_prompt "Office issues" d2) :=
  ⟨fun _ _ _ => rfl, fun _ => rfl,
   ⟨[("Ask questions", 1)], [("Ask questions", 2)],
    by decide, by decide, by decide⟩⟩

/-- C9: the recent-sessions block of show_stats in the part7 and writing
part1_5 scripts mutates the stored history: when at most 5 sessions are
stored the stored list itself is reversed in place (so a later save would
persist it reversed), and when more than 5 are stored the reverse acts on
a fresh slice and the stored list is unchanged. -/
theorem c9_show_stats_reverses_in_place (α : Type) (xs : List α) :
    (xs.length ≤ 5 →
        (RecentSessions.show_stats_recent xs).2 = xs.reverse) ∧
    (xs.length > 5 → (RecentSessions.show_stats_recent xs).2 = xs) := by
  constructor
  · intro hle
    unfold RecentSessions.show_stats_recent
    rcases xs with _ | ⟨x, rest⟩
    · simp
    · rw [if_neg (by simp),
        if_neg (by simp only [List.length_cons] at hle ⊢; omega)]
  · intro hgt
    unfold RecentSessions.show_stats_recent
    rcases xs with _ | ⟨x, rest⟩
    · simp at hgt
    · rw [if_neg (by simp), if_pos hgt]

/-- Witness for C9: with 3 stored sessions the stored list comes out
reversed; with 6 it is untouched. -/
theorem c9_show_stats_reverses_in_place_witness :
    (([1, 2, 3] : List Nat).length ≤ 5 ∧
      (RecentSessions.show_stats_recent ([1, 2, 3] : List Nat)).2 =
        [1, 2, 3].reverse) ∧
    (([1, 2, 3, 4, 5, 6] : List Nat).length > 5 ∧
      (RecentSessions.show_stats_recent
          ([1, 2, 3, 4, 5, 6] : List Nat)).2 = [1, 2, 3, 4, 5, 6]) :=
  ⟨⟨by decide, (c9_show_stats_reverses_in_place Nat [1, 2, 3]).1 (by decide)⟩,
   ⟨by decide,
    (c9_show_stats_reverses_in_place Nat [1, 2, 3, 4, 5, 6]).2 (by decide)⟩⟩

/-- The part5 question loop never touches the total field of the
session under construction. -/
theorem Part5.run_iters_total :
    ∀ (t : Option String) (iters : List Part5.IterInput)
      (s s2 : Part5.Session),
      Part5.run_iters t iters s = some s2 → s2.total = s.total
  | t, [], s, s2, h => by
    unfold Part5.run_iters at h
    cases h
    rfl
  | t, it :: rest, s, s2, h => by
    unfold Part5.run_iters at h
    cases hg : Part5.generate_question (Part5.resolve_topic t it.randTopic)
        it.outcome with
    | none =>
      rw [hg] at h
      simp only [] at h
      exact Part5.run_iters_total t rest s s2 h
    | some q =>
      rw [hg] at h
      simp only [] at h
      cases hr : Part5.read_answer it.answers with
      | none =>
        rw [hr] at h
        simp only [] at h
        exact Option.noConfusion h
      | some u =>
        rw [hr] at h
        simp only [] at h
        by_cases hu : u = "Q"
        · rw [if_pos hu] at h
          cases h
          rfl
        · rw [if_neg hu] at h
          have hrec := Part5.run_iters_total t rest _ s2 h
          exact hrec

/-- The inner part6 question loop never touches the total field. -/
theorem Part6.run_questions_total :
    ∀ (qs : List Part6.PassageQuestion) (entries : List (List String))
      (s : Part6.Session) (acc : List Part6.QuestionRecord)
      (s2 : Part6.Session) (recs : List Part6.QuestionRecord) (b : Bool),
      Part6.run_questions qs entries s acc = some (s2, recs, b) →
      s2.total = s.total
  | [], entries, s, acc, s2, recs, b, h => by
    simp only [Part6.run_questions] at h
    cases h
    rfl
  | q :: qs, [], s, acc, s2, recs, b, h => by
    simp only [Part6.run_questions] at h
    exact Option.noConfusion h
  | q :: qs, entries :: restEntries, s, acc, s2, recs, b, h => by
    simp only [Part6.run_questions] at h
    cases hr : Part5.read_answer entries with
    | none =>
      rw [hr] at h
      simp only [] at h
      exact Option.noConfusion h
    | some u =>
      rw [hr] at h
      simp only [] at h
      by_cases hu : u = "Q"
      · rw [if_pos hu] at h
        cases h
        rfl
      · rw [if_neg hu] at h
        have hrec := Part6.run_questions_total qs restEntries _ _ s2 recs b h
        exact hrec

/-- The part6 passage loop never touches the total field. -/
theorem Part6.run_passages_total :
    ∀ (t : Option String) (iters : List Part6.IterInput)
      (s s2 : Part6.Session),
      Part6.run_passages t iters s = some s2 → s2.total = s.total
  | t, [], s, s2, h => by
    unfold Part6.run_passages at h
    cases h
    rfl
  | t, it :: rest, s, s2, h => by
    unfold Part6.run_passages at h
    cases hg : Part6.generate_passage (t.getD it.randTopic) it.randType
        it.outcome with
    | none =>
      rw [hg] at h
      simp only [] at h
      exact Part6.run_passages_total t rest s s2 h
    | some passage =>
      rw [hg] at h
      simp only [] at h
      cases hq : Part6.run_questions passage.questions it.answers s [] with
      | none =>
        rw [hq] at h
        simp only [] at h
        exact Option.noConfusion h
      | some res =>
        rw [hq] at h
        obtain ⟨smid, recs, b⟩ := res
        simp only [] at h
        have hmid : smid.total = s.total :=
          Part6.run_questions_total passage.questions it.answers s []
            smid recs b hq
        by_cases hb : b = true
        · rw [if_pos hb] at h
          cases h
          exact hmid
        · rw [if_neg hb] at h
          have hrec := Part6.run_passages_total t rest _ s2 h
          rw [hrec]
          exact hmid

/-- C10: the total field of a stored session is fixed at session
creation to the requested item count (num_questions for part5,
num_passages * 3 for part6) and is never updated afterwards; as a
consequence it can exceed the number of question records actually stored
in the session, as a concrete part5 run with one failed generation
demonstrates. -/
theorem c10_session_total_fixed_at_creation :
    (∀ (n : Nat) (d : String) (t : Option String)
        (iters : List Part5.IterInput) (h h2 : Part5.History),
        Part5.practice_session n d t iters h = some h2 →
        ∃ s, h2.sessions = h.sessions ++ [s] ∧ s.total = n) ∧
    (∀ (n : Nat) (d : String) (t : Option String)
        (iters : List Part6.IterInput) (h h2 : Part6.History),
        Part6.practice_session n d t iters h = some h2 →
        ∃ s, h2.passages = h.passages ++ [s] ∧ s.total = n * 3) ∧
    (∃ h2 : Part5.History,
        Part5.practice_session 2 "d" Option.none
          [{ outcome := .raised, randTopic := "x", answers := [] },
           { outcome := .decoded (Part5.fallback_result "Tourism")
           , randTopic := "x", answers := ["a"] }]
          Part5.default_history = some h2 ∧
        ∃ s ∈ h2.sessions, s.questions.length < s.total) := by
  refine ⟨?_, ?_, ?_⟩
  · intro n d t iters h h2 hrun
    unfold Part5.practice_session at hrun
    cases hres : Part5.run_iters t iters
        { date := d, questions := [], correct := 0, total := n } with
    | none => rw [hres] at hrun; cases hrun
    | some s =>
      rw [hres] at hrun
      simp only [Option.map_some'] at hrun
      cases hrun
      exact ⟨s, rfl, Part5.run_iters_total t iters _ s hres⟩
  · intro n d t iters h h2 hrun
    unfold Part6.practice_session at hrun
    cases hres : Part6.run_passages t iters
        { date := d, passages := [], correct := 0, total := n * 3 } with
    | none => rw [hres] at hrun; cases hrun
    | some s =>
      rw [hres] at hrun
      simp only [Option.map_some'] at hrun
      cases hrun
      exact ⟨s, rfl, Part6.run_passages_total t iters _ s hres⟩
  · exact ⟨_, rfl, by decide⟩

/-- Witness for C10: a one-question part5 run and a one-passage part6
run, both from the default document, store sessions whose total equals
the requested count (1, and 1 * 3 respectively). -/
theorem c10_session_total_fixed_at_creation_witness :
    (∃ s, ({ sessions :=
              [{ date := "2024-01-01"
               , questions :=
                   [{ sentence := "Could not parse the question properly."
                    , user_answer := "A", correct_answer := "A"
                    , is_correct := true, topic := "Tourism" }]
               , correct := 1, total := 1 }]
           , total_correct := 1, total_questions := 1 } :
            Part5.History).sessions =
          Part5.default_history.sessions ++ [s] ∧ s.total = 1) ∧
    (∃ s, ({ passages :=
              [{ date := "2024-01-01"
               , passages :=
                   [{ passage_title := "Sample Passage"
                    , passage_type := "Memo", topic := "Notices"
                    , questions :=
                        [{ blank_number := 1, user_answer := "A"
                         , correct_answer := "A", is_correct := true }
                        ,{ blank_number := 2, user_answer := "A"
                         , correct_answer := "A", is_correct := true }
                        ,{ blank_number := 3, user_answer := "A"
                         , correct_answer := "A", is_correct := true }] }]
               , correct := 3, total := 3 }]
           , total_correct := 3, total_questions := 3 } :
            Part6.History).passages =
          Part6.default_history.passages ++ [s] ∧ s.total = 1 * 3) :=
  ⟨c10_session_total_fixed_at_creation.1 1 "2024-01-01" Option.none
    [{ outcome := .decoded (Part5.fallback_result "Tourism")
     , randTopic := "x", answers := ["a"] }]
    Part5.default_history _ (by decide),
   c10_session_total_fixed_at_creation.2.1 1 "2024-01-01" Option.none
    [{ outcome := .decoded (Part6.fallback_result "Memo" "Notices")
     , randTopic := "x", randType := "Memo"
     , answers := [["a"], ["a"], ["a"]] }]
    Part6.default_history _ (by decide)⟩

end Toeic
